import Mathlib

/-!
Verification of the `AzureOpenAIConnector` adapter
(`connectors/azure-openai-connector.py`).

The adapter builds a chat-completion request from a prompt and the
connector configuration, invokes the remote endpoint, extracts the first
choice's message content from a successful response, and absorbs one
specific "bad request" error shape (the content-filter policy rejection)
by returning the error body's `message` value instead of raising.

The embedding below is a direct translation of the source:

* `PyVal` models the dynamically typed values that can appear in an error
  body; `pyIn` and `pyIndex` model the dynamic semantics of the
  membership test `k in v` (dict key membership, string substring check,
  list element check, `TypeError` otherwise) and of subscripting `v[k]`
  (dict lookup with `KeyError`, `TypeError` on non-dicts), exactly the
  operations the handler applies to `ex.body`.
* `Connector` carries the configuration fields read by `get_response`
  (`pre_prompt`, `post_prompt`, `system_prompt`, `optional_params`,
  `model`, `timeout`) plus the fields set at construction.
* `buildTurns`, `newParams` embed the request construction; `dictInsert`
  is Python dict insertion (replace value of an existing key in place,
  append otherwise).
* `processResponse` embeds `_process_response`; an empty `choices` list
  gives the propagating `IndexError` of `response.choices[0]`.
* `get_response` takes the remote call as an oracle from the request
  payload actually sent to the outcome, so that properties about "the
  request sent" and about error propagation are both statable.
-/

/-- A dynamically typed value, as found in the structured body of an API
error (`ex.body` in the source, typed `object` there). -/
inductive PyVal where
  | vNone
  | vInt (n : Int)
  | vStr (s : String)
  | vList (xs : List PyVal)
  | vDict (fields : List (String × PyVal))

/-- Lookup in an association list representing a Python dict (keys are
unique in an actual dict; lookup returns the first match). -/
def assocGet {α : Type} : List (String × α) → String → Option α
  | [], _ => none
  | (k', v) :: rest, k => if k' = k then some v else assocGet rest k

/-- Python dict insertion `d[k] = v` / merge semantics of
`{**d, k: v}`: replace the value at an existing key in place, append a
new key at the end. -/
def dictInsert {α : Type} : List (String × α) → String → α → List (String × α)
  | [], k, v => [(k, v)]
  | (k', v') :: rest, k, v =>
      if k' = k then (k, v) :: rest else (k', v') :: dictInsert rest k v

/-- `charsMatchAt n h` : the char list `n` occurs at the head of `h`. -/
def charsMatchAt : List Char → List Char → Bool
  | [], _ => true
  | _ :: _, [] => false
  | a :: as, b :: bs => a == b && charsMatchAt as bs

/-- `charsContain n h` : the char list `n` occurs contiguously in `h`
(Python substring containment `n in h` for strings). -/
def charsContain (needle : List Char) : List Char → Bool
  | [] => charsMatchAt needle []
  | b :: bs => charsMatchAt needle (b :: bs) || charsContain needle bs

/-- An error raised by the remote call. `isBadRequest` distinguishes the
`BadRequestError` class caught by the handler; `body` is the structured
error body; `tag` is the identity of the raised error object, so that
"re-raises the same error" is a statement about the error value, not
just about its body. -/
structure ApiError where
  isBadRequest : Bool
  body : PyVal
  tag : Nat

/-- The exceptions the embedded code can raise: the re-raised original
API error, and the runtime errors of the dynamic operations
(`TypeError`, `KeyError`) and of list indexing (`IndexError`). -/
inductive PyExc where
  | apiError (e : ApiError)
  | typeError
  | keyError
  | indexError

/-- Python membership `k in v` for a string `k`: dict key membership,
substring test on strings, element test on lists, `TypeError` on
anything else. -/
def pyIn (k : String) (v : PyVal) : Except PyExc Bool :=
  match v with
  | .vDict m => .ok (assocGet m k).isSome
  | .vStr s => .ok (charsContain k.data s.data)
  | .vList xs => .ok (xs.any fun x => match x with | .vStr s => s = k | _ => false)
  | _ => .error .typeError

/-- Python subscripting `v[k]` for a string `k`: dict lookup
(`KeyError` when absent), `TypeError` on any non-dict. -/
def pyIndex (v : PyVal) (k : String) : Except PyExc PyVal :=
  match v with
  | .vDict m =>
      match assocGet m k with
      | some x => .ok x
      | none => .error .keyError
  | _ => .error .typeError

/-- A `role`/`content` pair of the wire payload (`openai_request`
entries in the source). -/
structure Turn where
  role : String
  content : String
deriving DecidableEq

/-- A value of the merged request-parameter mapping: strings, numbers,
the turn sequence under `"messages"`, or an opaque operator-supplied
value. -/
inductive ParamVal where
  | pStr (s : String)
  | pNum (n : Int)
  | pTurns (ts : List Turn)
  | pOpaque (v : PyVal)

/-- The message object of one completion choice; only `content` is read
by the source. `extra` stands for every other attribute. -/
structure ChatMsg where
  content : PyVal
  extra : PyVal

/-- One element of `response.choices`; only `message` is read by the
source. -/
structure ChatChoice where
  message : ChatMsg
  extra : PyVal

/-- The provider response object; only `choices` is read by the
source. -/
structure ChatResponse where
  choices : List ChatChoice
  extra : PyVal

/-- The connector state after `__init__`: the configuration fields from
the framework base class plus the fields the subclass constructor sets
(`api_version`, the client handle, `model`). -/
structure Connector where
  token : String
  endpoint : String
  optional_params : List (String × ParamVal)
  pre_prompt : String
  post_prompt : String
  system_prompt : String
  timeout : ParamVal
  api_version : ParamVal
  clientTag : Nat
  model : ParamVal

/-- The framework-supplied endpoint configuration consumed by
`__init__`. -/
structure ConnectorEndpointArguments where
  token : String
  endpoint : String
  optional_params : List (String × ParamVal)
  pre_prompt : String
  post_prompt : String
  system_prompt : String
  timeout : ParamVal

/-- `d.get(k, dflt)`. -/
def paramGetD (d : List (String × ParamVal)) (k : String) (dflt : ParamVal) : ParamVal :=
  match assocGet d k with
  | some v => v
  | none => dflt

/-- `AzureOpenAIConnector.__init__`: copy the base-class fields, resolve
`api_version` from `optional_params` with the fixed default, build the
client, and resolve `model` from `optional_params` with default `""`. -/
def mkAzureOpenAIConnector (ep : ConnectorEndpointArguments) : Connector :=
  { token := ep.token
    endpoint := ep.endpoint
    optional_params := ep.optional_params
    pre_prompt := ep.pre_prompt
    post_prompt := ep.post_prompt
    system_prompt := ep.system_prompt
    timeout := ep.timeout
    api_version := paramGetD ep.optional_params "api_version" (.pStr "2024-02-01")
    clientTag := 0
    model := paramGetD ep.optional_params "model" (.pStr "") }

/-- `connector_prompt = f"{self.pre_prompt}{prompt}{self.post_prompt}"`. -/
def connectorPrompt (c : Connector) (prompt : String) : String :=
  c.pre_prompt ++ prompt ++ c.post_prompt

/-- The `openai_request` turn sequence: a system turn first when
`self.system_prompt` is truthy (a nonempty string), then the user turn
with the wrapped prompt. -/
def buildTurns (c : Connector) (prompt : String) : List Turn :=
  if c.system_prompt ≠ "" then
    [{ role := "system", content := c.system_prompt },
     { role := "user", content := connectorPrompt c prompt }]
  else
    [{ role := "user", content := connectorPrompt c prompt }]

/-- `new_params = {**self.optional_params, "model": self.model,
"messages": openai_request, "timeout": self.timeout}`. -/
def newParams (c : Connector) (prompt : String) : List (String × ParamVal) :=
  dictInsert
    (dictInsert
      (dictInsert c.optional_params "model" c.model)
      "messages" (.pTurns (buildTurns c prompt)))
    "timeout" c.timeout

/-- `_process_response`: `return response.choices[0].message.content`;
an empty `choices` list raises `IndexError`. -/
def processResponse (r : ChatResponse) : Except PyExc PyVal :=
  match r.choices with
  | [] => .error .indexError
  | c0 :: _ => .ok c0.message.content

/-- The body of the `except BadRequestError as ex` handler applied to
`ex.body`, with `raiseOrig` the effect of the bare `raise`:

    if isinstance(ex.body, dict) and "innererror" in ex.body:
        if "code" in ex.body["innererror"]:
            if ("ResponsibleAIPolicyViolation" in ex.body["innererror"]["code"]
                    and "message" in ex.body):
                return ex.body["message"]
    raise
-/
def handleBadReq (body : PyVal) (raiseOrig : Except PyExc PyVal) : Except PyExc PyVal :=
  match body with
  | .vDict m =>
      match assocGet m "innererror" with
      | some inner =>
          match pyIn "code" inner with
          | .error ex => .error ex
          | .ok false => raiseOrig
          | .ok true =>
              match pyIndex inner "code" with
              | .error ex => .error ex
              | .ok codeVal =>
                  match pyIn "ResponsibleAIPolicyViolation" codeVal with
                  | .error ex => .error ex
                  | .ok false => raiseOrig
                  | .ok true =>
                      match assocGet m "message" with
                      | some v => .ok v
                      | none => raiseOrig
      | none => raiseOrig
  | _ => raiseOrig

/-- Dispatch on the error raised by the remote call: only
`BadRequestError` is caught and inspected; every other error class
propagates untouched. -/
def handleApiError (e : ApiError) : Except PyExc PyVal :=
  if e.isBadRequest then handleBadReq e.body (Except.error (PyExc.apiError e))
  else Except.error (PyExc.apiError e)

/-- `get_response`: build the turn sequence and the merged parameters,
invoke the remote call with them (`call` is the remote endpoint, an
oracle from the request payload sent to the outcome), process a
successful response, and run the `BadRequestError` handler on a raised
error. -/
def get_response (c : Connector) (prompt : String)
    (call : List (String × ParamVal) → Except ApiError ChatResponse) :
    Except PyExc PyVal :=
  match call (newParams c prompt) with
  | .ok resp => processResponse resp
  | .error e => handleApiError e

/-- `get_response` in state-passing form: the method body of the source
contains no assignment to any `self` attribute (it only reads
`pre_prompt`, `post_prompt`, `system_prompt`, `optional_params`,
`model`, `timeout` and calls the client), so the connector state after
the call is the connector state before it, whatever the outcome. -/
def get_responseSt (c : Connector) (prompt : String)
    (call : List (String × ParamVal) → Except ApiError ChatResponse) :
    Except PyExc PyVal × Connector :=
  (get_response c prompt call, c)

/-- Whether a dynamic value is a Python `str`. -/
def PyVal.isStr : PyVal → Bool
  | .vStr _ => true
  | _ => false

/-- The bodies on which the handler's own inspection is ill-typed, so
that one of its dynamic operations raises a TypeError before the bare
raise is reached. Read off the handler's trace: the membership test
`"code" in body["innererror"]` raises a TypeError when innererror is
neither a mapping, a string, nor a list; the subscript
`body["innererror"]["code"]` raises a TypeError when innererror is a
string containing `"code"` or a list with element `"code"` (string and
list subscripts by a string key are TypeErrors); and the test
`"ResponsibleAIPolicyViolation" in ...["code"]` raises a TypeError when
innererror is a mapping whose `code` entry is neither a string, a
mapping, nor a list. Every other body passes through the inspection
without a TypeError. -/
def filterIllTyped (body : PyVal) : Bool :=
  match body with
  | .vDict m =>
      match assocGet m "innererror" with
      | none => false
      | some (.vDict im) =>
          match assocGet im "code" with
          | none => false
          | some (.vStr _) => false
          | some (.vDict _) => false
          | some (.vList _) => false
          | some _ => true
      | some (.vStr s) => charsContain "code".data s.data
      | some (.vList xs) =>
          xs.any fun x => match x with | .vStr s => s = "code" | _ => false
      | some _ => true
  | _ => false

/-- The bodies the handler absorbs, with containment read exactly as
the code reads it (Python `in`): the body is a mapping whose
`innererror` entry is a mapping with a `code` entry that contains
`"ResponsibleAIPolicyViolation"` — as a substring of a string value, a
key of a mapping value, or an element of a list value — and the outer
body has a `message` entry. -/
def filterAbsorbs (body : PyVal) : Bool :=
  match body with
  | .vDict m =>
      (match assocGet m "innererror" with
       | some (.vDict im) =>
           match assocGet im "code" with
           | some (.vStr s) =>
               charsContain "ResponsibleAIPolicyViolation".data s.data
           | some (.vDict cm) =>
               (assocGet cm "ResponsibleAIPolicyViolation").isSome
           | some (.vList xs) =>
               xs.any fun x =>
                 match x with
                 | .vStr s => s = "ResponsibleAIPolicyViolation"
                 | _ => false
           | _ => false
       | _ => false)
      && (assocGet m "message").isSome
  | _ => false

/-! ### Helper lemmas about the dict operations -/

theorem assocGet_dictInsert_self {α : Type} (d : List (String × α)) (k : String) (v : α) :
    assocGet (dictInsert d k v) k = some v := by
  induction d with
  | nil => simp [dictInsert, assocGet]
  | cons p rest ih =>
      by_cases h : p.1 = k
      · cases p
        simp_all [dictInsert, assocGet]
      · cases p
        simp_all [dictInsert, assocGet]

theorem assocGet_dictInsert_ne {α : Type} (d : List (String × α)) (k k' : String) (v : α)
    (h : k' ≠ k) :
    assocGet (dictInsert d k v) k' = assocGet d k' := by
  have hne : ¬k = k' := fun hh => h hh.symm
  induction d with
  | nil => simp [dictInsert, assocGet, hne]
  | cons p rest ih =>
      cases p with
      | mk k1 v1 =>
          by_cases h1 : k1 = k
          · subst h1
            simp [dictInsert, assocGet, hne]
          · simp [dictInsert, assocGet, h1, ih]

/-! ### Sample configurations and outcomes used by the witnesses -/

def connSys : Connector :=
  { token := "t"
    endpoint := "u"
    optional_params := []
    pre_prompt := "A"
    post_prompt := "B"
    system_prompt := "S"
    timeout := .pNum 300
    api_version := .pStr "2024-02-01"
    clientTag := 0
    model := .pStr "gpt" }

def connNoSys : Connector := { connSys with system_prompt := "" }

def connOverride : Connector :=
  { connSys with
      optional_params := [("model", .pStr "operator-model"), ("temperature", .pNum 1)] }

def respHello : ChatResponse :=
  { choices := [{ message := { content := PyVal.vStr "hello", extra := PyVal.vNone },
                  extra := PyVal.vNone }]
    extra := PyVal.vNone }

def callHello : List (String × ParamVal) → Except ApiError ChatResponse :=
  fun _ => Except.ok respHello

def respEmptyChoices : ChatResponse := { choices := [], extra := PyVal.vNone }

def callEmptyChoices : List (String × ParamVal) → Except ApiError ChatResponse :=
  fun _ => Except.ok respEmptyChoices

def errPolicy : ApiError :=
  { isBadRequest := true
    body := PyVal.vDict
      [("innererror", PyVal.vDict [("code", PyVal.vStr "ResponsibleAIPolicyViolation")]),
       ("message", PyVal.vStr "rejected")]
    tag := 7 }

def callPolicy : List (String × ParamVal) → Except ApiError ChatResponse :=
  fun _ => Except.error errPolicy

def errOther : ApiError :=
  { isBadRequest := true
    body := PyVal.vDict
      [("innererror", PyVal.vDict [("code", PyVal.vStr "OtherCode")]),
       ("message", PyVal.vStr "x")]
    tag := 4 }

def callOther : List (String × ParamVal) → Except ApiError ChatResponse :=
  fun _ => Except.error errOther

def errOddInner : ApiError :=
  { isBadRequest := true
    body := PyVal.vDict [("innererror", PyVal.vInt 5), ("message", PyVal.vStr "x")]
    tag := 3 }

def callOddInner : List (String × ParamVal) → Except ApiError ChatResponse :=
  fun _ => Except.error errOddInner

def respNoneContent : ChatResponse :=
  { choices := [{ message := { content := PyVal.vNone, extra := PyVal.vNone },
                  extra := PyVal.vNone }]
    extra := PyVal.vNone }

def callNoneContent : List (String × ParamVal) → Except ApiError ChatResponse :=
  fun _ => Except.ok respNoneContent

/-! ### Claim theorems -/

/-- C3: for every prompt string (the empty string included) and every
configured pre/post fragment, the content of the user turn in the
request sent equals pre_prompt ++ prompt ++ post_prompt; the user turn
is the last element of the turn sequence, and the turn sequence is the
"messages" entry of the payload handed to the remote call. -/
theorem user_turn_content_eq_wrapped_prompt (c : Connector) (p : String) :
    (buildTurns c p).getLast? =
      some { role := "user", content := c.pre_prompt ++ p ++ c.post_prompt } ∧
    assocGet (newParams c p) "messages" = some (ParamVal.pTurns (buildTurns c p)) := by
  constructor
  · unfold buildTurns connectorPrompt
    by_cases h : c.system_prompt = "" <;> simp [h]
  · unfold newParams
    rw [assocGet_dictInsert_ne _ _ _ _ (by decide)]
    exact assocGet_dictInsert_self _ _ _

/-- C4: if a system prompt is configured (a truthy value), the turn
sequence sent has length 2 with the system turn (role "system", content
the configured system prompt) first and the user turn second; with no
system prompt configured it is the single user turn. -/
theorem turn_sequence_shape (c : Connector) (p : String) :
    (c.system_prompt ≠ "" →
      buildTurns c p =
        [{ role := "system", content := c.system_prompt },
         { role := "user", content := c.pre_prompt ++ p ++ c.post_prompt }]) ∧
    (c.system_prompt = "" →
      buildTurns c p = [{ role := "user", content := c.pre_prompt ++ p ++ c.post_prompt }]) := by
  unfold buildTurns connectorPrompt
  constructor <;> intro h <;> simp [h]

theorem turn_sequence_shape_witness :
    buildTurns connSys "p" =
      [{ role := "system", content := connSys.system_prompt },
       { role := "user", content := connSys.pre_prompt ++ "p" ++ connSys.post_prompt }] ∧
    buildTurns connNoSys "p" =
      [{ role := "user", content := connNoSys.pre_prompt ++ "p" ++ connNoSys.post_prompt }] :=
  ⟨(turn_sequence_shape connSys "p").1 (by decide),
   (turn_sequence_shape connNoSys "p").2 rfl⟩

/-- C5: in the merged payload, "model", "messages" and "timeout" map to
the connector's resolved model, the turn sequence built for this call,
and the configured timeout — overriding any same-named entry of
optional_params — and every other optional-parameter entry passes
through unchanged. -/
theorem merged_params_override (c : Connector) (p : String) :
    assocGet (newParams c p) "model" = some c.model ∧
    assocGet (newParams c p) "messages" = some (ParamVal.pTurns (buildTurns c p)) ∧
    assocGet (newParams c p) "timeout" = some c.timeout ∧
    ∀ k : String, k ≠ "model" → k ≠ "messages" → k ≠ "timeout" →
      assocGet (newParams c p) k = assocGet c.optional_params k := by
  refine ⟨?_, ?_, ?_, ?_⟩ <;> unfold newParams
  · rw [assocGet_dictInsert_ne _ _ _ _ (by decide),
        assocGet_dictInsert_ne _ _ _ _ (by decide)]
    exact assocGet_dictInsert_self _ _ _
  · rw [assocGet_dictInsert_ne _ _ _ _ (by decide)]
    exact assocGet_dictInsert_self _ _ _
  · exact assocGet_dictInsert_self _ _ _
  · intro k h1 h2 h3
    rw [assocGet_dictInsert_ne _ _ _ _ h3, assocGet_dictInsert_ne _ _ _ _ h2,
        assocGet_dictInsert_ne _ _ _ _ h1]

theorem merged_params_override_witness :
    assocGet (newParams connOverride "q") "model" = some connOverride.model ∧
    assocGet (newParams connOverride "q") "temperature" = some (ParamVal.pNum 1) := by
  refine ⟨(merged_params_override connOverride "q").1, ?_⟩
  rw [(merged_params_override connOverride "q").2.2.2 "temperature"
      (by decide) (by decide) (by decide)]
  rfl

/-- C10: an empty-string system prompt is treated as not configured —
the system-prompt check is a truthiness test, so the turn sequence sent
is the single user turn. -/
theorem empty_system_prompt_not_sent (c : Connector) (p : String)
    (h : c.system_prompt = "") :
    buildTurns c p = [{ role := "user", content := c.pre_prompt ++ p ++ c.post_prompt }] := by
  unfold buildTurns connectorPrompt
  simp [h]

theorem empty_system_prompt_not_sent_witness :
    buildTurns connNoSys "q" =
      [{ role := "user", content := connNoSys.pre_prompt ++ "q" ++ connNoSys.post_prompt }] :=
  empty_system_prompt_not_sent connNoSys "q" rfl

/-- C6: on a successful response whose choices list starts with c0,
get_response returns exactly c0.message.content; the remaining choices,
the other attributes of c0 and of its message, and every other field of
the response are universally quantified here and so cannot affect the
result. -/
theorem first_choice_content_returned (c : Connector) (p : String)
    (call : List (String × ParamVal) → Except ApiError ChatResponse)
    (r : ChatResponse) (c0 : ChatChoice) (tl : List ChatChoice)
    (hcall : call (newParams c p) = Except.ok r)
    (hch : r.choices = c0 :: tl) :
    get_response c p call = Except.ok c0.message.content := by
  simp only [get_response, hcall, processResponse, hch]

theorem first_choice_content_returned_witness :
    get_response connSys "p" callHello = Except.ok (PyVal.vStr "hello") :=
  first_choice_content_returned connSys "p" callHello respHello
    { message := { content := PyVal.vStr "hello", extra := PyVal.vNone },
      extra := PyVal.vNone }
    [] rfl rfl

/-- C8: a successful response with an empty choices list is not
validated: extraction fails with the IndexError of choices[0], which
propagates out of get_response and is never converted into a returned
value. -/
theorem empty_choices_index_failure (c : Connector) (p : String)
    (call : List (String × ParamVal) → Except ApiError ChatResponse)
    (r : ChatResponse)
    (hcall : call (newParams c p) = Except.ok r)
    (hch : r.choices = []) :
    get_response c p call = Except.error PyExc.indexError := by
  simp only [get_response, hcall, processResponse, hch]

theorem empty_choices_index_failure_witness :
    get_response connSys "p" callEmptyChoices = Except.error PyExc.indexError :=
  empty_choices_index_failure connSys "p" callEmptyChoices respEmptyChoices rfl rfl

/-- C9: get_response performs no local mutation of connector state: in
state-passing form, the connector after the call equals the connector
before it for every prompt and every call outcome (returning or
raising), and the result is exactly get_response's. -/
theorem connector_state_unchanged (c : Connector) (p : String)
    (call : List (String × ParamVal) → Except ApiError ChatResponse) :
    (get_responseSt c p call).2 = c ∧
    (get_responseSt c p call).1 = get_response c p call :=
  ⟨rfl, rfl⟩

/-- C1: a bad-request error whose mapping body carries an innererror
mapping whose "code" field is a string containing the substring
"ResponsibleAIPolicyViolation", together with a "message" entry in the
outer body, is absorbed: get_response returns the body's message value
without raising. -/
theorem policy_violation_absorbed (c : Connector) (p : String)
    (call : List (String × ParamVal) → Except ApiError ChatResponse)
    (e : ApiError) (m im : List (String × PyVal)) (s : String) (v : PyVal)
    (hcall : call (newParams c p) = Except.error e)
    (hbad : e.isBadRequest = true)
    (hbody : e.body = PyVal.vDict m)
    (hinner : assocGet m "innererror" = some (PyVal.vDict im))
    (hcode : assocGet im "code" = some (PyVal.vStr s))
    (hsub : charsContain "ResponsibleAIPolicyViolation".data s.data = true)
    (hmsg : assocGet m "message" = some v) :
    get_response c p call = Except.ok v := by
  simp only [get_response, hcall, handleApiError, hbad, if_true, hbody, handleBadReq,
    hinner, pyIn, hcode, Option.isSome_some, pyIndex, hsub, hmsg]

theorem policy_violation_absorbed_witness :
    get_response connSys "p" callPolicy = Except.ok (PyVal.vStr "rejected") :=
  policy_violation_absorbed connSys "p" callPolicy errPolicy
    [("innererror", PyVal.vDict [("code", PyVal.vStr "ResponsibleAIPolicyViolation")]),
     ("message", PyVal.vStr "rejected")]
    [("code", PyVal.vStr "ResponsibleAIPolicyViolation")]
    "ResponsibleAIPolicyViolation" (PyVal.vStr "rejected")
    rfl rfl rfl rfl rfl rfl rfl

/-- On a body that does not make the inspection ill-typed and that the
handler does not absorb, the handler falls through to the bare raise. -/
theorem handleBadReq_no_match_reraise (body : PyVal) (ro : Except PyExc PyVal)
    (hit : filterIllTyped body = false)
    (hab : filterAbsorbs body = false) :
    handleBadReq body ro = ro := by
  cases body with
  | vNone => rfl
  | vInt n => rfl
  | vStr s => rfl
  | vList xs => rfl
  | vDict m =>
      simp only [filterIllTyped] at hit
      simp only [filterAbsorbs] at hab
      simp only [handleBadReq]
      cases hinner : assocGet m "innererror" with
      | none => rfl
      | some inner =>
          rw [hinner] at hit hab
          cases inner with
          | vNone => exact absurd hit (by simp)
          | vInt n => exact absurd hit (by simp)
          | vStr s =>
              have hs : charsContain "code".data s.data = false := hit
              simp only [pyIn, hs]
          | vList xs =>
              have hl : (xs.any fun x =>
                  match x with | PyVal.vStr s => s = "code" | _ => false) = false := hit
              simp only [pyIn, hl]
          | vDict im =>
              have hit2 : (match assocGet im "code" with
                           | none => false
                           | some (PyVal.vStr _) => false
                           | some (PyVal.vDict _) => false
                           | some (PyVal.vList _) => false
                           | some _ => true) = false := hit
              have hab2 : ((match assocGet im "code" with
                            | some (PyVal.vStr s) =>
                                charsContain "ResponsibleAIPolicyViolation".data s.data
                            | some (PyVal.vDict cm) =>
                                (assocGet cm "ResponsibleAIPolicyViolation").isSome
                            | some (PyVal.vList xs) =>
                                xs.any fun x =>
                                  match x with
                                  | PyVal.vStr s => s = "ResponsibleAIPolicyViolation"
                                  | _ => false
                            | _ => false) &&
                           (assocGet m "message").isSome) = false := hab
              simp only [pyIn, pyIndex]
              cases hcode : assocGet im "code" with
              | none => simp [hcode]
              | some cv =>
                  rw [hcode] at hit2 hab2
                  cases cv with
                  | vNone => exact absurd hit2 (by simp)
                  | vInt n => exact absurd hit2 (by simp)
                  | vStr s2 =>
                      have hab3 : (charsContain "ResponsibleAIPolicyViolation".data s2.data &&
                                   (assocGet m "message").isSome) = false := hab2
                      simp only [hcode, Option.isSome_some]
                      cases hcc : charsContain "ResponsibleAIPolicyViolation".data s2.data with
                      | false => simp [hcc]
                      | true =>
                          rw [hcc] at hab3
                          simp only [Bool.true_and] at hab3
                          cases hmsg : assocGet m "message" with
                          | none => simp [hcc, hmsg]
                          | some w =>
                              rw [hmsg] at hab3
                              exact absurd hab3 (by simp)
                  | vDict cm =>
                      have hab3 : ((assocGet cm "ResponsibleAIPolicyViolation").isSome &&
                                   (assocGet m "message").isSome) = false := hab2
                      simp only [hcode, Option.isSome_some]
                      cases hk : assocGet cm "ResponsibleAIPolicyViolation" with
                      | none => simp [hk]
                      | some kv =>
                          rw [hk] at hab3
                          simp only [Option.isSome_some, Bool.true_and] at hab3
                          cases hmsg : assocGet m "message" with
                          | none => simp [hk, hmsg]
                          | some w =>
                              rw [hmsg] at hab3
                              exact absurd hab3 (by simp)
                  | vList xs2 =>
                      have hab3 : ((xs2.any fun x =>
                          match x with
                          | PyVal.vStr s => s = "ResponsibleAIPolicyViolation"
                          | _ => false) &&
                                   (assocGet m "message").isSome) = false := hab2
                      simp only [hcode, Option.isSome_some]
                      cases hany : (xs2.any fun x =>
                          match x with
                          | PyVal.vStr s => s = "ResponsibleAIPolicyViolation"
                          | _ => false) with
                      | false => simp [hany]
                      | true =>
                          rw [hany] at hab3
                          simp only [Bool.true_and] at hab3
                          cases hmsg : assocGet m "message" with
                          | none => simp [hany, hmsg]
                          | some w =>
                              rw [hmsg] at hab3
                              exact absurd hab3 (by simp)

/-- Companion to the amended C2: on every ill-typed body the handler
does not reach the bare raise at all — one of its own dynamic
operations raises a TypeError, whatever the re-raise would have
produced. Together with the re-raise theorem below and the absorption
theorem, this accounts for the handler on every bad-request body. -/
theorem handleBadReq_illTyped_typeError (body : PyVal) (ro : Except PyExc PyVal)
    (hit : filterIllTyped body = true) :
    handleBadReq body ro = Except.error PyExc.typeError := by
  cases body with
  | vNone => exact absurd hit (by simp [filterIllTyped])
  | vInt n => exact absurd hit (by simp [filterIllTyped])
  | vStr s => exact absurd hit (by simp [filterIllTyped])
  | vList xs => exact absurd hit (by simp [filterIllTyped])
  | vDict m =>
      simp only [filterIllTyped] at hit
      simp only [handleBadReq]
      cases hinner : assocGet m "innererror" with
      | none => rw [hinner] at hit; exact absurd hit (by simp)
      | some inner =>
          rw [hinner] at hit
          cases inner with
          | vNone => rfl
          | vInt n => rfl
          | vStr s =>
              have hs : charsContain "code".data s.data = true := hit
              simp [pyIn, pyIndex, hs]
          | vList xs =>
              have hl : (xs.any fun x =>
                  match x with | PyVal.vStr s => s = "code" | _ => false) = true := hit
              simp [pyIn, pyIndex, hl]
          | vDict im =>
              have hit2 : (match assocGet im "code" with
                           | none => false
                           | some (PyVal.vStr _) => false
                           | some (PyVal.vDict _) => false
                           | some (PyVal.vList _) => false
                           | some _ => true) = true := hit
              simp only [pyIn, pyIndex]
              cases hcode : assocGet im "code" with
              | none => rw [hcode] at hit2; exact absurd hit2 (by simp)
              | some cv =>
                  rw [hcode] at hit2
                  cases cv with
                  | vStr s2 => exact absurd hit2 (by simp)
                  | vDict cm => exact absurd hit2 (by simp)
                  | vList xs2 => exact absurd hit2 (by simp)
                  | vNone => simp [hcode, pyIn]
                  | vInt n => simp [hcode, pyIn]

/-- C2 (amended): every non-bad-request error, and every bad-request
error whose body neither matches the absorbed content-filter shape
(with "a code containing ResponsibleAIPolicyViolation" read as the code
reads containment: substring of a string code value, key of a mapping
code value, element of a list code value — together with a message
entry) nor makes the handler's own inspection ill-typed, is re-raised
unchanged: the very same error value comes back out. The ill-typed
bodies — where a TypeError from the inspection itself preempts the
re-raise, as the counterexample exhibits — are excluded and are exactly
characterized by filterIllTyped and the companion theorem above; on
every other non-matching body the original claim holds as stated. -/
theorem non_matching_error_reraised (c : Connector) (p : String)
    (call : List (String × ParamVal) → Except ApiError ChatResponse)
    (e : ApiError)
    (hcall : call (newParams c p) = Except.error e)
    (h : e.isBadRequest = false ∨
         (filterIllTyped e.body = false ∧ filterAbsorbs e.body = false)) :
    get_response c p call = Except.error (PyExc.apiError e) := by
  simp only [get_response, hcall, handleApiError]
  rcases h with h | ⟨h1, h2⟩
  · simp [h]
  · cases hb : e.isBadRequest with
    | false => simp
    | true =>
        simp only [if_true]
        exact handleBadReq_no_match_reraise e.body _ h1 h2

theorem non_matching_error_reraised_witness :
    get_response connSys "p" callOther = Except.error (PyExc.apiError errOther) :=
  non_matching_error_reraised connSys "p" callOther errOther rfl
    (Or.inr ⟨rfl, rfl⟩)

/-- C2 counterexample: at a bad-request error whose body is the mapping
with "innererror" bound to the integer 5 and "message" bound to "x" —
a body whose innererror has no code field at all, so the claim as
stated requires the original error to be re-raised unchanged — the
handler's membership test ("code" in 5) raises a TypeError, so
get_response raises that TypeError and not the original error. -/
theorem non_matching_error_counterexample :
    get_response connSys "p" callOddInner = Except.error PyExc.typeError ∧
    Except.error PyExc.typeError ≠
      (Except.error (PyExc.apiError errOddInner) : Except PyExc PyVal) :=
  ⟨rfl, fun h => by injection h with h2; exact PyExc.noConfusion h2⟩

/-- Inversion: when the bare raise never produces a value, the handler
only returns a value when the body is a mapping and the value is its
"message" entry. -/
theorem handleBadReq_ok_inv (body : PyVal) (ro : Except PyExc PyVal) (v : PyVal)
    (hro : ∀ w : PyVal, ro ≠ Except.ok w)
    (h : handleBadReq body ro = Except.ok v) :
    ∃ m, body = PyVal.vDict m ∧ assocGet m "message" = some v := by
  cases body with
  | vNone => exact absurd h (hro v)
  | vInt n => exact absurd h (hro v)
  | vStr s => exact absurd h (hro v)
  | vList xs => exact absurd h (hro v)
  | vDict m =>
      refine ⟨m, rfl, ?_⟩
      simp only [handleBadReq] at h
      cases hinner : assocGet m "innererror" with
      | none => rw [hinner] at h; exact absurd h (hro v)
      | some inner =>
          rw [hinner] at h
          have h2 : (match pyIn "code" inner with
                     | Except.error ex => Except.error ex
                     | Except.ok false => ro
                     | Except.ok true =>
                         match pyIndex inner "code" with
                         | Except.error ex => Except.error ex
                         | Except.ok codeVal =>
                             match pyIn "ResponsibleAIPolicyViolation" codeVal with
                             | Except.error ex => Except.error ex
                             | Except.ok false => ro
                             | Except.ok true =>
                                 match assocGet m "message" with
                                 | some w => Except.ok w
                                 | none => ro) = Except.ok v := h
          cases hin : pyIn "code" inner with
          | error ex => rw [hin] at h2; exact absurd h2 (fun hh => by injection hh)
          | ok b =>
              rw [hin] at h2
              cases b with
              | false => exact absurd h2 (hro v)
              | true =>
                  cases hix : pyIndex inner "code" with
                  | error ex => rw [hix] at h2; exact absurd h2 (fun hh => by injection hh)
                  | ok codeVal =>
                      rw [hix] at h2
                      have h3 : (match pyIn "ResponsibleAIPolicyViolation" codeVal with
                                 | Except.error ex => Except.error ex
                                 | Except.ok false => ro
                                 | Except.ok true =>
                                     match assocGet m "message" with
                                     | some w => Except.ok w
                                     | none => ro) = Except.ok v := h2
                      cases hin2 : pyIn "ResponsibleAIPolicyViolation" codeVal with
                      | error ex => rw [hin2] at h3; exact absurd h3 (fun hh => by injection hh)
                      | ok b2 =>
                          rw [hin2] at h3
                          cases b2 with
                          | false => exact absurd h3 (hro v)
                          | true =>
                              cases hmsg : assocGet m "message" with
                              | none => rw [hmsg] at h3; exact absurd h3 (hro v)
                              | some w =>
                                  rw [hmsg] at h3
                                  injection h3 with h4
                                  rw [h4]

/-- C7 (amended): a value returned normally by get_response is either
the first choice's content or the error body's "message" entry, so it
is a string whenever the provider supplies strings in those two
positions (as its wire contract prescribes); the code itself does not
check this, and returns the value as it came (see the
counterexample). -/
theorem returned_value_is_string (c : Connector) (p : String)
    (call : List (String × ParamVal) → Except ApiError ChatResponse) (v : PyVal)
    (hok : ∀ r, call (newParams c p) = Except.ok r →
        ∀ ch ∈ r.choices, ch.message.content.isStr = true)
    (herr : ∀ e w, call (newParams c p) = Except.error e →
        (∃ m, e.body = PyVal.vDict m ∧ assocGet m "message" = some w) →
        w.isStr = true)
    (hret : get_response c p call = Except.ok v) :
    v.isStr = true := by
  unfold get_response at hret
  cases hcall : call (newParams c p) with
  | ok r =>
      rw [hcall] at hret
      simp only [processResponse] at hret
      cases hch : r.choices with
      | nil => rw [hch] at hret; exact absurd hret (fun hh => by injection hh)
      | cons c0 tl =>
          rw [hch] at hret
          injection hret with h2
          rw [← h2]
          exact hok r hcall c0 (by rw [hch]; exact List.mem_cons_self c0 tl)
  | error e =>
      rw [hcall] at hret
      simp only [handleApiError] at hret
      cases hb : e.isBadRequest with
      | false => rw [hb] at hret; simp at hret
      | true =>
          rw [hb] at hret
          simp only [if_true] at hret
          exact herr e v hcall
            (handleBadReq_ok_inv e.body _ v (fun w hw => by injection hw) hret)

theorem returned_value_is_string_witness : (PyVal.vStr "hello").isStr = true :=
  returned_value_is_string connSys "p" callHello (PyVal.vStr "hello")
    (by intro r hr ch hch
        injection hr with hr
        rw [← hr] at hch
        simp only [respHello, List.mem_singleton] at hch
        rw [hch]
        rfl)
    (by intro e w he hex
        simp [callHello] at he)
    rfl

/-- C7 counterexample: at a successful provider response whose first
choice carries content None (the SDK's message content field is
optional), get_response returns normally and the returned value is
None, not a string. -/
theorem returned_value_is_string_counterexample :
    get_response connSys "p" callNoneContent = Except.ok PyVal.vNone ∧
    PyVal.vNone.isStr = false :=
  ⟨rfl, rfl⟩
